import Mathlib

/-!
Shallow embedding of src/create-hetzner-server.py.

Effectful Python code is modelled as a writer-style computation over `M α`:
a result (`Outcome α`, where `Outcome.exit c` models `sys.exit(c)` or an
uncaught exception terminating the interpreter with a nonzero code) paired
with the list of observable events (HTTP requests, stdin prompts, prints,
sleeps, shell invocations) emitted before returning or exiting.  The flows
are modelled under a `World` in which every Hetzner API request succeeds
with an already-parsed JSON body; the transport/error path of
`HetznerAPI._request` is modelled separately, parameterised over the
transport outcome.  Interactive stdin is a stream `answers : Nat → String`
consumed in order; the consumption index is threaded explicitly.
-/

namespace Hetzner

/-- Result of running a piece of the script: a value, or process
termination with the given exit code. -/
inductive Outcome (α : Type) : Type
  | ok (a : α)
  | exit (code : Nat)
  deriving DecidableEq, Repr

/-- A single firewall rule dictionary, as built literally in
`create_firewall`: inbound rules carry `source_ips`, outbound rules carry
`destination_ips`. -/
structure FwRule where
  direction : String
  protocol : String
  port : String
  source_ips : Option (List String)
  destination_ips : Option (List String)
  description : String
  deriving DecidableEq, Repr

/-- The `firewall_data` request body of `create_firewall`. -/
structure FirewallData where
  name : String
  rules : List FwRule
  deriving DecidableEq, Repr

/-- The `server_data` request body of `create_server`. -/
structure ServerData where
  name : String
  server_type : String
  location : String
  image : String
  ssh_keys : List Nat
  start_after_create : Bool
  enable_ipv4 : Bool
  enable_ipv6 : Bool
  backups : Option Bool
  firewalls : Option (List Nat)
  deriving DecidableEq, Repr

/-- Body attached to a POST event. -/
inductive Payload : Type
  | fw (d : FirewallData)
  | srv (d : ServerData)
  deriving DecidableEq, Repr

/-- Observable events of a run. -/
inductive Ev : Type
  | apiGet (endpoint : String)
  | apiPost (endpoint : String) (payload : Payload)
  | apiDelete (endpoint : String)
  | ipifyGet
  | promptEv
  | printEv (s : String)
  | sleepEv (secs : Nat)
  | writeFile
  | shellEv (cmd : String)
  | httpEv (method : String) (endpoint : String)
  deriving DecidableEq, Repr

/-- Writer-style computation: outcome plus emitted event trace. -/
abbrev M (α : Type) : Type := Outcome α × List Ev

def M.pure {α : Type} (a : α) : M α := (Outcome.ok a, [])

def M.bind {α β : Type} (x : M α) (f : α → M β) : M β :=
  match x with
  | (Outcome.ok a, t) => ((f a).1, t ++ (f a).2)
  | (Outcome.exit c, t) => (Outcome.exit c, t)

instance : Monad M where
  pure := M.pure
  bind := M.bind

def emit (e : Ev) : M Unit := (Outcome.ok (), [e])

def emitAll (es : List Ev) : M Unit := (Outcome.ok (), es)

def exitWith {α : Type} (c : Nat) : M α := (Outcome.exit c, [])

/-! ### Configuration mappings (Python dict of strings) -/

abbrev Config : Type := List (String × String)

/-- Python `k in config` / `config.get(k)`: first binding wins, matching
dict lookup under the update discipline of `cfgSet`. -/
def cfgFind (cfg : Config) (k : String) : Option String :=
  (cfg.find? (fun p => p.1 == k)).map (fun p => p.2)

/-- Python `config[k] = v`. -/
def cfgSet (cfg : Config) (k v : String) : Config :=
  if cfg.any (fun p => p.1 == k) then
    cfg.map (fun p => if p.1 == k then (k, v) else p)
  else
    cfg ++ [(k, v)]

/-- Python `config.setdefault(k, v)`. -/
def setdefault (cfg : Config) (k v : String) : Config :=
  match cfgFind cfg k with
  | some _ => cfg
  | none => cfg ++ [(k, v)]

/-- Python `config.get(k, d)`. -/
def cfgGetD (cfg : Config) (k d : String) : String := (cfgFind cfg k).getD d

/-- Python `config[k]`: an absent key raises KeyError, which is uncaught
everywhere in the script and terminates the interpreter with exit code 1. -/
def cfgGetExn (cfg : Config) (k : String) : M String :=
  match cfgFind cfg k with
  | some v => M.pure v
  | none => exitWith 1

/-! ### Python string helpers used by load_config and the flows -/

/-- ASCII whitespace stripped by Python `str.strip()` (the Unicode extras
never occur in the claims considered here). -/
def pyIsSpace (c : Char) : Bool :=
  c == ' ' || c == '\t' || c == '\n' || c == '\x0b' || c == '\x0c' || c == '\r'

/-- Drop all leading and trailing characters satisfying `p`. -/
def stripList (p : Char → Bool) (l : List Char) : List Char :=
  ((l.dropWhile p).reverse.dropWhile p).reverse

/-- Python `s.strip()`. -/
def pyStrip (s : String) : String := String.mk (stripList pyIsSpace s.data)

/-- Python `s.strip(c)` for a single character `c`: removes ALL leading and
trailing occurrences of `c`, not one matching pair. -/
def pyStripChar (c : Char) (s : String) : String :=
  String.mk (stripList (fun x => x == c) s.data)

/-- Python `s.lower()` (ASCII case mapping suffices here). -/
def pyLower (s : String) : String := String.mk (s.data.map Char.toLower)

/-- Python `response.lower() in [ "yes", "y" ]`, the confirmation test. -/
def isYes (s : String) : Bool := pyLower s == "yes" || pyLower s == "y"

/-! ### load_config and validate_config -/

/-- One iteration of the `load_config` line loop: the stripped line is kept
iff it is non-empty, does not start with a hash (for the one-character
prefix, `line.startswith` is the head-character test), and contains an
equals sign; the key is everything before the FIRST equals sign
(`line.split('=', 1)`), the value is the remainder after
`.strip().strip(quote).strip(tick)`. -/
def parseLine (raw : String) : Option (String × String) :=
  let line := stripList pyIsSpace raw.data
  if !line.isEmpty && !(line.head? == some '#') && line.contains '=' then
    let key := String.mk (line.takeWhile (fun c => !(c == '=')))
    let rest := (line.dropWhile (fun c => !(c == '='))).drop 1
    some (key,
      pyStripChar '\'' (pyStripChar '"' (String.mk (stripList pyIsSpace rest))))
  else
    none

/-- Function `load_config`, applied to the lines of hetzner-config.env (the
file-missing fatal path concerns the filesystem and is not modelled). -/
def load_config (lines : List String) : Config :=
  lines.foldl
    (fun cfg line =>
      match parseLine line with
      | some kv => cfgSet cfg kv.1 kv.2
      | none => cfg)
    []

/-- The literal settings line A='3' (spelled out character by character). -/
def tickLine : String := String.mk ['A', '=', '\'', '3', '\'']

def placeholderToken : String := "your-api-token-here"

/-- The `config.setdefault` block at the end of `validate_config`. -/
def applyDefaults (cfg : Config) : Config :=
  setdefault (setdefault (setdefault (setdefault (setdefault (setdefault cfg
    "SERVER_NAME" "stx-node-map-prod")
    "SERVER_TYPE" "cx21")
    "SERVER_LOCATION" "nbg1")
    "SERVER_IMAGE" "ubuntu-22.04")
    "ENABLE_FIREWALL" "true")
    "ENABLE_BACKUPS" "false"

/-- Function `validate_config`: the single required key is HETZNER_API_TOKEN; it must
be present, truthy (non-empty) and not the documented placeholder, else
`sys.exit(1)`; on success the defaults are filled in. -/
def validate_config (cfg : Config) : M Config :=
  match cfgFind cfg "HETZNER_API_TOKEN" with
  | none => do
    emit (Ev.printEv "ERROR: HETZNER_API_TOKEN not set!")
    emit (Ev.printEv "Please set it in hetzner-config.env")
    exitWith 1
  | some v =>
    if v == "" || v == placeholderToken then do
      emit (Ev.printEv "ERROR: HETZNER_API_TOKEN not set!")
      emit (Ev.printEv "Please set it in hetzner-config.env")
      exitWith 1
    else
      M.pure (applyDefaults cfg)

/-! ### The world the flows run against -/

structure SshKey where
  name : String
  id : Nat
  deriving DecidableEq, Repr

structure SrvEntry where
  name : String
  id : Nat
  deriving DecidableEq, Repr

structure FwEntry where
  name : String
  id : Nat
  deriving DecidableEq, Repr

/-- The server record returned by `GET servers/{id}` during polling. -/
structure ServerRec where
  name : String
  id : Nat
  status : String
  ipv4 : String
  ipv6 : Option String
  deriving DecidableEq, Repr

/-- Environment for the flows: listings returned by the API, the public-IP
echo outcome, the per-tick server record during polling, the results of the
create calls, and the stdin answer stream. -/
structure World where
  sshKeys : List SshKey
  servers : List SrvEntry
  firewalls : List FwEntry
  publicIp : Option String
  serverAt : Nat → ServerRec
  newServerId : Nat
  createError : Bool
  rootPassword : Option String
  newFirewallId : Nat
  answers : Nat → String

/-! ### Resource lookups -/

/-- Function `get_ssh_key_id`: list, scan for exact name match, return first match
id; otherwise print every available key and `sys.exit(1)`. -/
def get_ssh_key_id (w : World) (ssh_key_name : String) : M Nat := do
  emit (Ev.apiGet "ssh_keys")
  match w.sshKeys.find? (fun k => k.name == ssh_key_name) with
  | some k => pure k.id
  | none => do
    emit (Ev.printEv ("ERROR: SSH key " ++ ssh_key_name ++ " not found!"))
    emit (Ev.printEv "Available SSH keys:")
    emitAll (w.sshKeys.map (fun k =>
      Ev.printEv ("  - " ++ k.name ++ " (ID: " ++ toString k.id ++ ")")))
    emit (Ev.printEv "Please create an SSH key in Hetzner Console or update SSH_KEY_NAME in config")
    exitWith 1

/-- Function `check_existing_server`: list, scan for exact name match, return first
match id or None. -/
def check_existing_server (w : World) (server_name : String) : M (Option Nat) := do
  emit (Ev.apiGet "servers")
  pure ((w.servers.find? (fun s => s.name == server_name)).map (fun s => s.id))

/-! ### Firewall provisioning -/

/-- Function `get_public_ip`: one GET against the ipify echo service (5 second
timeout); any failure is swallowed, prints a warning and yields None. -/
def get_public_ip (w : World) : M (Option String) := do
  emit Ev.ipifyGet
  match w.publicIp with
  | some ip => pure (some ip)
  | none => do
    emit (Ev.printEv "Warning: Could not detect public IP, SSH will allow from anywhere")
    pure none

/-- Python truthiness of the optional IP string: None and the empty string
are falsy. -/
def pyTruthy (o : Option String) : Bool :=
  match o with
  | some s => s != ""
  | none => false

/-- Python `ssh_source_ips = [ public_ip/32 ] if public_ip else [allow-all]`. -/
def sshSourceIps (public_ip : Option String) : List String :=
  match public_ip with
  | some ip => if ip == "" then ["0.0.0.0/0", "::/0"] else [ip ++ "/32"]
  | none => ["0.0.0.0/0", "::/0"]

/-- The literal rule list of `firewall_data` in `create_firewall`. -/
def firewallRules (ssh_source_ips : List String) : List FwRule :=
  [ { direction := "in", protocol := "tcp", port := "22",
      source_ips := some ssh_source_ips, destination_ips := none,
      description := "SSH (restricted to deployment machine)" },
    { direction := "in", protocol := "tcp", port := "443",
      source_ips := some ["0.0.0.0/0", "::/0"], destination_ips := none,
      description := "HTTPS" },
    { direction := "out", protocol := "tcp", port := "80",
      source_ips := none, destination_ips := some ["0.0.0.0/0", "::/0"],
      description := "HTTP outbound" },
    { direction := "out", protocol := "tcp", port := "443",
      source_ips := none, destination_ips := some ["0.0.0.0/0", "::/0"],
      description := "HTTPS outbound" },
    { direction := "out", protocol := "tcp", port := "20443",
      source_ips := none, destination_ips := some ["0.0.0.0/0", "::/0"],
      description := "Stacks API" },
    { direction := "out", protocol := "tcp", port := "20444",
      source_ips := none, destination_ips := some ["0.0.0.0/0", "::/0"],
      description := "Stacks P2P" } ]

/-- The `firewall_data` dictionary posted by `create_firewall`. -/
def firewall_data (firewall_name : String) (ssh_source_ips : List String) :
    FirewallData :=
  { name := firewall_name, rules := firewallRules ssh_source_ips }

/-- Function `create_firewall`: list firewalls; if one with the target name exists,
print and return its id; otherwise resolve the public IP, build the fixed
rule set and POST it. -/
def create_firewall (w : World) (firewall_name : String) : M Nat := do
  emit (Ev.apiGet "firewalls")
  match w.firewalls.find? (fun f => f.name == firewall_name) with
  | some f => do
    emit (Ev.printEv ("Firewall already exists (ID: " ++ toString f.id ++ ")"))
    pure f.id
  | none => do
    let public_ip ← get_public_ip w
    let ssh_source_ips := sshSourceIps public_ip
    _ ← (if pyTruthy public_ip then
          emit (Ev.printEv ("Restricting SSH access to: " ++ public_ip.getD ""))
        else
          M.pure ())
    emit (Ev.apiPost "firewalls" (Payload.fw (firewall_data firewall_name ssh_source_ips)))
    emit (Ev.printEv ("Firewall created (ID: " ++ toString w.newFirewallId ++ ")"))
    pure w.newFirewallId

/-! ### The API client error path (`HetznerAPI._request`) -/

/-- Abstract parsed JSON value; `emptyObj` is the literal empty dict the
client substitutes for a 204 body. -/
inductive ApiVal : Type
  | emptyObj
  | val (tag : Nat)
  deriving DecidableEq, Repr

/-- Transport-level outcome of the single HTTP call made by
`HetznerAPI._request`: `netError` is a RequestException with no response
attached (connection failure — `hasattr(e.response, 'text')` is false for
`e.response is None`); `httpResponse` carries the final status code, raw
response text, and the parsed JSON body. -/
inductive TransportOutcome : Type
  | netError
  | httpResponse (status : Nat) (text : String) (body : ApiVal)
  deriving DecidableEq, Repr

/-- Method `HetznerAPI._request`: performs exactly one HTTP attempt (no retry);
`response.raise_for_status()` raises HTTPError precisely for 4xx/5xx
statuses, and the `except RequestException` handler prints the error plus
the response text when a response is attached and calls `sys.exit(1)`; a
surviving 204 is normalized to the empty dict; any other surviving status
returns the parsed JSON body. -/
def hetzner_request (method : String) (endpoint : String)
    (t : TransportOutcome) : M ApiVal := do
  emit (Ev.httpEv method endpoint)
  match t with
  | TransportOutcome.netError => do
    emit (Ev.printEv "API Error")
    exitWith 1
  | TransportOutcome.httpResponse status text body =>
    if 400 ≤ status ∧ status < 600 then do
      emit (Ev.printEv "API Error")
      emit (Ev.printEv ("Response: " ++ text))
      exitWith 1
    else if status == 204 then
      pure ApiVal.emptyObj
    else
      pure body

/-! ### Server creation and readiness polling -/

/-- Function `create_server`: builds `server_data` from the config (dict accesses in
source order), POSTs it; a response carrying an error key prints the
payload and exits 1; otherwise returns the new server id and the optional
generated root password. -/
def create_server (w : World) (cfg : Config) (ssh_key_id : Nat)
    (firewall_id : Option Nat) : M (Nat × Option String) := do
  let name ← cfgGetExn cfg "SERVER_NAME"
  let stype ← cfgGetExn cfg "SERVER_TYPE"
  let loc ← cfgGetExn cfg "SERVER_LOCATION"
  let image ← cfgGetExn cfg "SERVER_IMAGE"
  let backupsCfg ← cfgGetExn cfg "ENABLE_BACKUPS"
  let data : ServerData :=
    { name := name, server_type := stype, location := loc, image := image,
      ssh_keys := [ssh_key_id], start_after_create := true,
      enable_ipv4 := true, enable_ipv6 := true,
      backups := if pyLower backupsCfg == "true" then some true else none,
      firewalls :=
        match firewall_id with
        | some fid => if fid == 0 then none else some [fid]
        | none => none }
  emit (Ev.apiPost "servers" (Payload.srv data))
  if w.createError then do
    emit (Ev.printEv "ERROR creating server:")
    exitWith 1
  else
    pure (w.newServerId, w.rootPassword)

/-- The `for i in range(60)` loop of `wait_for_server`: `i` is the current
tick index, `fuel` the remaining iterations; exhausting the budget prints
the timeout message and exits 1. -/
def waitFrom (w : World) (server_id : Nat) : Nat → Nat → M ServerRec
  | _, 0 => do
    emit (Ev.printEv "Timeout waiting for server")
    exitWith 1
  | i, fuel + 1 => do
    emit (Ev.apiGet ("servers/" ++ toString server_id))
    if (w.serverAt i).status == "running" then do
      emit (Ev.printEv "Server is running!")
      pure (w.serverAt i)
    else do
      emit (Ev.printEv ".")
      emit (Ev.sleepEv 2)
      waitFrom w server_id (i + 1) fuel

/-- Function `wait_for_server`. -/
def wait_for_server (w : World) (server_id : Nat) : M ServerRec := do
  emit (Ev.printEv "Waiting for server to be ready...")
  emit (Ev.printEv "(This may take 1-2 minutes)")
  waitFrom w server_id 0 60

/-- Function `save_server_info`: renders the report template and writes it to
server-info.txt, returning the ipv4 the rest of the flow uses.  The
template text itself is abstracted behind the `writeFile` event (no claim
concerns the report bytes); the dict accesses it performs are kept,
including `config.get('SSH_KEY_NAME', 'admin')` — the only place an SSH
key name default exists in the script. -/
def save_server_info (cfg : Config) (server : ServerRec) : M String := do
  let _stype ← cfgGetExn cfg "SERVER_TYPE"
  let _loc ← cfgGetExn cfg "SERVER_LOCATION"
  let _img ← cfgGetExn cfg "SERVER_IMAGE"
  let _sshName := cfgGetD cfg "SSH_KEY_NAME" "admin"
  let _domain := cfgGetD cfg "DOMAIN_NAME" "your-domain.com"
  emit Ev.writeFile
  pure server.ipv4

/-! ### Cleanup flow -/

/-- Step 2 of `clean_resources` (find + confirm + delete the firewall);
`n` counts the stdin answers consumed so far. -/
def cleanFirewallStep (w : World) (firewall_name : String) (n : Nat) :
    M Unit := do
  emit (Ev.printEv "Step 2: Finding and deleting firewall...")
  emit (Ev.apiGet "firewalls")
  match w.firewalls.find? (fun f => f.name == firewall_name) with
  | some f => do
    emit (Ev.printEv ("Found firewall (ID: " ++ toString f.id ++ ")"))
    emit Ev.promptEv
    if isYes (w.answers n) then do
      emit (Ev.apiDelete ("firewalls/" ++ toString f.id))
      emit (Ev.printEv "Firewall deleted")
    else
      emit (Ev.printEv "Skipped firewall deletion")
  | none =>
    emit (Ev.printEv ("No firewall named " ++ firewall_name ++ " found"))

/-- Function `clean_resources`: server step first (find + confirm + delete), then
the firewall step, then the completion banner; never exits — `main`
returns afterwards, so the process exit code is 0. -/
def clean_resources (cfg : Config) (w : World) : M Unit := do
  let server_name ← cfgGetExn cfg "SERVER_NAME"
  let firewall_name := server_name ++ "-firewall"
  emit (Ev.printEv ("Cleaning up resources for " ++ server_name ++ "..."))
  emit (Ev.printEv "Step 1: Finding and deleting server...")
  emit (Ev.apiGet "servers")
  let n ←
    match w.servers.find? (fun s => s.name == server_name) with
    | some s => do
      emit (Ev.printEv ("Found server (ID: " ++ toString s.id ++ ")"))
      emit Ev.promptEv
      if isYes (w.answers 0) then do
        emit (Ev.apiDelete ("servers/" ++ toString s.id))
        emit (Ev.printEv "Server deleted")
        emit (Ev.sleepEv 2)
        pure 1
      else do
        emit (Ev.printEv "Skipped server deletion")
        pure 1
    | none => do
      emit (Ev.printEv ("No server named " ++ server_name ++ " found"))
      pure 0
  cleanFirewallStep w firewall_name n
  emit (Ev.printEv "Cleanup complete!")

/-! ### Create flow and CLI dispatch (`main`) -/

/-- The create flow of `main` (the no-argument command) after the banner
and after `validate_config`: `cfg` is the validated, defaults-filled
mapping.  The stdin answer index is threaded explicitly: the
name-collision prompt is answer 0; the copy-files prompt is the next one;
the SSL prompt the one after. -/
def createMainBody (cfg : Config) (w : World) : M Unit := do
  emit (Ev.printEv "Configuration:")
  let sn ← cfgGetExn cfg "SERVER_NAME"
  emit (Ev.printEv ("  Server Name: " ++ sn))
  let st ← cfgGetExn cfg "SERVER_TYPE"
  emit (Ev.printEv ("  Server Type: " ++ st))
  let sl ← cfgGetExn cfg "SERVER_LOCATION"
  emit (Ev.printEv ("  Location:    " ++ sl))
  let si ← cfgGetExn cfg "SERVER_IMAGE"
  emit (Ev.printEv ("  Image:       " ++ si))
  let sk ← cfgGetExn cfg "SSH_KEY_NAME"
  emit (Ev.printEv ("  SSH Key:     " ++ sk))
  let fw ← cfgGetExn cfg "ENABLE_FIREWALL"
  emit (Ev.printEv ("  Firewall:    " ++ fw))
  let bk ← cfgGetExn cfg "ENABLE_BACKUPS"
  emit (Ev.printEv ("  Backups:     " ++ bk))
  emit (Ev.printEv "Step 1: Checking SSH key...")
  let sshName ← cfgGetExn cfg "SSH_KEY_NAME"
  let ssh_key_id ← get_ssh_key_id w sshName
  emit (Ev.printEv ("SSH key found (ID: " ++ toString ssh_key_id ++ ")"))
  emit (Ev.printEv "Step 2: Checking if server already exists...")
  let serverName ← cfgGetExn cfg "SERVER_NAME"
  let existing ← check_existing_server w serverName
  let n ←
    match existing with
    | some sid => do
      emit (Ev.printEv ("WARNING: Server already exists (ID: " ++ toString sid ++ ")"))
      emit Ev.promptEv
      if isYes (w.answers 0) then do
        emit (Ev.printEv "Deleting existing server...")
        emit (Ev.apiDelete ("servers/" ++ toString sid))
        emit (Ev.printEv "Waiting for server deletion...")
        emit (Ev.sleepEv 5)
        pure 1
      else do
        emit (Ev.printEv "Aborting.")
        (exitWith 0 : M Nat)
    | none => pure 0
  let fwEnable ← cfgGetExn cfg "ENABLE_FIREWALL"
  let firewall_id ←
    if pyLower fwEnable == "true" then do
      emit (Ev.printEv "Step 3: Creating firewall...")
      let serverName2 ← cfgGetExn cfg "SERVER_NAME"
      let fid ← create_firewall w (serverName2 ++ "-firewall")
      pure (some fid)
    else do
      emit (Ev.printEv "Step 3: Skipping firewall creation...")
      pure (Option.none (α := Nat))
  emit (Ev.printEv "Step 4: Creating server...")
  let createRes ← create_server w cfg ssh_key_id firewall_id
  emit (Ev.printEv ("Server creation initiated (ID: " ++ toString createRes.1 ++ ")"))
  let server ← wait_for_server w createRes.1
  let ipv4 ← save_server_info cfg server
  emit (Ev.printEv "Server Created Successfully!")
  emit (Ev.printEv "(server-info.txt contents echoed)")
  emit Ev.promptEv
  _ ← (if isYes (w.answers n) then do
        emit (Ev.printEv "Waiting 10 seconds for SSH to be ready...")
        emit (Ev.sleepEv 10)
        emit (Ev.shellEv ("scp deployment files to root@" ++ ipv4))
        emit (Ev.printEv "Deployment files copied!")
      else
        M.pure ())
  let cloudflare_token := cfgGetD cfg "CLOUDFLARE_API_TOKEN" ""
  _ ← (if cloudflare_token != "" && cloudflare_token != "your_cloudflare_api_token_here" then do
        emit Ev.promptEv
        if isYes (w.answers (n + 1)) then do
          emit (Ev.printEv "Running SSL setup with Cloudflare DNS automation...")
          emit (Ev.shellEv ("sudo 03-setup-ssl.sh " ++ ipv4))
          emit (Ev.printEv "SSL and DNS configured!")
          let domain_name := cfgGetD cfg "DOMAIN_NAME" ""
          if domain_name != "" && domain_name != "your-domain.com" then
            emit (Ev.printEv ("https://" ++ domain_name))
          else
            M.pure ()
        else
          M.pure ()
      else do
        emit (Ev.printEv "Note: CLOUDFLARE_API_TOKEN not configured")
        emit (Ev.printEv "To setup SSL later with Cloudflare automation run 03-setup-ssl.sh"))
  emit (Ev.printEv "You can now SSH into the server")

/-- The create flow entry: validate the loaded mapping, then run the body
above on the validated (defaults-filled) mapping. -/
def createFlow (cfg0 : Config) (w : World) : M Unit := do
  let cfg ← validate_config cfg0
  createMainBody cfg w

/-- The separator line printed by `main`: Python repeats the equals sign
fifty times. -/
def sepLine : String := String.mk (List.replicate 50 '=')

/-- The banner `main` prints before dispatching. -/
def banner : List Ev :=
  [Ev.printEv sepLine,
   Ev.printEv "Hetzner Cloud Server Creation",
   Ev.printEv sepLine]

/-- Function `main`: `args` is `sys.argv[1:]`; the dispatcher lowercases the first
argument before comparing.  `Outcome.ok ()` models falling off the end of
`main`, i.e. process exit code 0. -/
def pymain (args : List String) (cfg : Config) (w : World) : M Unit := do
  emitAll banner
  match args with
  | [] => createFlow cfg w
  | a :: _ =>
    let command := pyLower a
    if command == "clean" then do
      let cfg2 ← validate_config cfg
      clean_resources cfg2 w
    else if command == "help" || command == "-h" || command == "--help" then do
      emit (Ev.printEv "Usage:")
      emit (Ev.printEv "  ./create-hetzner-server.py          Create a new server")
      emit (Ev.printEv "  ./create-hetzner-server.py clean    Delete server and firewall")
      emit (Ev.printEv "  ./create-hetzner-server.py help     Show this help message")
    else do
      emit (Ev.printEv ("Unknown command: " ++ command))
      emit (Ev.printEv "Use clean or help for more info")
      exitWith 1

/-! ### Event classifiers used by the theorems -/

def isNetworkEv (e : Ev) : Bool :=
  match e with
  | Ev.apiGet _ => true
  | Ev.apiPost _ _ => true
  | Ev.apiDelete _ => true
  | Ev.ipifyGet => true
  | Ev.httpEv _ _ => true
  | _ => false

def isPostEv (e : Ev) : Bool :=
  match e with
  | Ev.apiPost _ _ => true
  | _ => false

def isDeleteEv (e : Ev) : Bool :=
  match e with
  | Ev.apiDelete _ => true
  | _ => false

def isGetEv (e : Ev) : Bool :=
  match e with
  | Ev.apiGet _ => true
  | _ => false

def isPromptEv (e : Ev) : Bool :=
  match e with
  | Ev.promptEv => true
  | _ => false

def isSleepEv (e : Ev) : Bool :=
  match e with
  | Ev.sleepEv _ => true
  | _ => false

def isHttpEv (e : Ev) : Bool :=
  match e with
  | Ev.httpEv _ _ => true
  | _ => false

/-- A concrete world used to instantiate the universally quantified
theorems below at checkable inputs. -/
def wTest : World :=
  { sshKeys := [{ name := "admin", id := 1 }],
    servers := [],
    firewalls := [],
    publicIp := some "1.2.3.4",
    serverAt := fun j =>
      { name := "demo", id := 42,
        status := if j == 0 then "starting" else "running",
        ipv4 := "5.6.7.8", ipv6 := none },
    newServerId := 42,
    createError := false,
    rootPassword := none,
    newFirewallId := 9,
    answers := fun _ => "no" }

/-- A world whose firewall listing already contains the target name. -/
def wFwExists : World :=
  { wTest with firewalls := [{ name := "demo-firewall", id := 7 }] }

/-- A world holding the server demo and the firewall demo-firewall. -/
def wBoth : World :=
  { wTest with
    servers := [{ name := "demo", id := 42 }],
    firewalls := [{ name := "demo-firewall", id := 7 }],
    answers := fun _ => "YES" }

/-- A minimal valid configuration (token only). -/
def cfgTok : Config := [("HETZNER_API_TOKEN", "tok")]

/-- A valid configuration naming the server demo. -/
def cfgDemo : Config :=
  [("HETZNER_API_TOKEN", "tok"), ("SERVER_NAME", "demo"),
   ("SSH_KEY_NAME", "admin")]

/-- A configuration carrying only the placeholder token. -/
def cfgBad : Config := [("HETZNER_API_TOKEN", placeholderToken)]

/-- The three ways `validate_config` rejects the API token: absent, empty,
or the documented placeholder. -/
def tokenInvalid (cfg : Config) : Prop :=
  cfgFind cfg "HETZNER_API_TOKEN" = none ∨
  cfgFind cfg "HETZNER_API_TOKEN" = some "" ∨
  cfgFind cfg "HETZNER_API_TOKEN" = some placeholderToken

/-! ## Theorems -/

@[simp] theorem M.bind_ok {α β : Type} (a : α) (t : List Ev) (f : α → M β) :
    M.bind (Outcome.ok a, t) f = ((f a).1, t ++ (f a).2) := rfl

@[simp] theorem M.bind_exit {α β : Type} (c : Nat) (t : List Ev) (f : α → M β) :
    M.bind (Outcome.exit c, t) f = (Outcome.exit c, t) := rfl

@[simp] theorem M.bind_eq {α β : Type} (x : M α) (f : α → M β) :
    x >>= f = M.bind x f := rfl

@[simp] theorem M.pure_eq {α : Type} (a : α) :
    (Pure.pure a : M α) = (Outcome.ok a, []) := rfl

@[simp] theorem M.pure_def {α : Type} (a : α) :
    M.pure a = (Outcome.ok a, []) := rfl

@[simp] theorem M.emit_eq (e : Ev) : emit e = (Outcome.ok (), [e]) := rfl

@[simp] theorem M.emitAll_eq (es : List Ev) : emitAll es = (Outcome.ok (), es) := rfl

@[simp] theorem M.exitWith_eq {α : Type} (c : Nat) :
    (exitWith c : M α) = (Outcome.exit c, []) := rfl

/-- Claim C1: firewall provisioning is idempotent.  If the listing already
contains a firewall whose name equals the target, `create_firewall`
returns that (first matching) firewall's id and its whole trace is the one
GET plus a print — no POST and no modification request.  Only when no
listed firewall matches does it POST the fixed rule set built from the
detected public IP and return the new firewall's id. -/
theorem create_firewall_idempotent (w : World) (name : String) :
    (∀ f, w.firewalls.find? (fun g => g.name == name) = some f →
      create_firewall w name =
        (Outcome.ok f.id,
         [Ev.apiGet "firewalls",
          Ev.printEv ("Firewall already exists (ID: " ++ toString f.id ++ ")")])) ∧
    (w.firewalls.find? (fun g => g.name == name) = none →
      (create_firewall w name).1 = Outcome.ok w.newFirewallId ∧
      (create_firewall w name).2.filter isPostEv =
        [Ev.apiPost "firewalls"
          (Payload.fw (firewall_data name (sshSourceIps w.publicIp)))]) := by
  constructor
  · intro f hf
    simp [create_firewall, hf]
  · intro hn
    cases hip : w.publicIp with
    | none =>
      simp [create_firewall, hn, get_public_ip, hip, pyTruthy, isPostEv]
    | some ip =>
      by_cases hemp : ip = ""
      · subst hemp
        simp [create_firewall, hn, get_public_ip, hip, pyTruthy, isPostEv]
      · simp [create_firewall, hn, get_public_ip, hip, pyTruthy, hemp, isPostEv]

/-- Witness for C1 at a concrete listing containing the target name. -/
theorem create_firewall_idempotent_witness :
    create_firewall wFwExists "demo-firewall" =
      (Outcome.ok 7,
       [Ev.apiGet "firewalls",
        Ev.printEv ("Firewall already exists (ID: " ++ toString 7 ++ ")")]) :=
  (create_firewall_idempotent wFwExists "demo-firewall").1
    { name := "demo-firewall", id := 7 } (by decide)

/-- Claim C6: when the firewall is actually created, the inbound SSH rule
sources are the detected ip/32 when the echo service answered (with a
nonempty ip), and the allow-all pair after the warning when it was
unreachable; the fixed rule set opens exactly inbound tcp/22 and tcp/443
and outbound tcp/80, tcp/443, tcp/20443, tcp/20444, and the first (SSH)
rule carries exactly the computed source list. -/
theorem restricted_firewall_rules (w : World) (name : String)
    (hn : w.firewalls.find? (fun g => g.name == name) = none) :
    (∀ ip, w.publicIp = some ip → ip ≠ "" →
      create_firewall w name =
        (Outcome.ok w.newFirewallId,
         [Ev.apiGet "firewalls", Ev.ipifyGet,
          Ev.printEv ("Restricting SSH access to: " ++ ip),
          Ev.apiPost "firewalls" (Payload.fw (firewall_data name [ip ++ "/32"])),
          Ev.printEv ("Firewall created (ID: " ++ toString w.newFirewallId ++ ")")])) ∧
    (w.publicIp = none →
      create_firewall w name =
        (Outcome.ok w.newFirewallId,
         [Ev.apiGet "firewalls", Ev.ipifyGet,
          Ev.printEv "Warning: Could not detect public IP, SSH will allow from anywhere",
          Ev.apiPost "firewalls" (Payload.fw (firewall_data name ["0.0.0.0/0", "::/0"])),
          Ev.printEv ("Firewall created (ID: " ++ toString w.newFirewallId ++ ")")])) ∧
    (∀ srcs,
      (firewall_data name srcs).rules.map (fun r => (r.direction, r.protocol, r.port)) =
        [("in", "tcp", "22"), ("in", "tcp", "443"), ("out", "tcp", "80"),
         ("out", "tcp", "443"), ("out", "tcp", "20443"), ("out", "tcp", "20444")] ∧
      (firewall_data name srcs).rules.head?.map (fun r => r.source_ips) =
        some (some srcs)) := by
  refine ⟨?_, ?_, ?_⟩
  · intro ip hip hemp
    simp [create_firewall, hn, get_public_ip, hip, pyTruthy, hemp, sshSourceIps]
  · intro hip
    simp [create_firewall, hn, get_public_ip, hip, pyTruthy, sshSourceIps]
  · intro srcs
    exact ⟨rfl, rfl⟩

/-- Witness for C6 at a concrete world with an empty firewall listing and a
detected public IP. -/
theorem restricted_firewall_rules_witness :
    create_firewall wTest "demo-firewall" =
      (Outcome.ok 9,
       [Ev.apiGet "firewalls", Ev.ipifyGet,
        Ev.printEv ("Restricting SSH access to: " ++ "1.2.3.4"),
        Ev.apiPost "firewalls"
          (Payload.fw (firewall_data "demo-firewall" ["1.2.3.4" ++ "/32"])),
        Ev.printEv ("Firewall created (ID: " ++ toString (9 : Nat) ++ ")")]) :=
  (restricted_firewall_rules wTest "demo-firewall" (by decide)).1
    "1.2.3.4" rfl (by decide)

/-- Claim C4: both lookups fetch the full listing with one GET and scan for
an exact name match.  `get_ssh_key_id` returns the first matching key's id;
with no match it exits 1, its trace listing every available key's name and
id.  `check_existing_server` returns the first matching server's id, and
None (a non-error result) when nothing matches. -/
theorem name_lookup_spec (w : World) (name : String) :
    (∀ k, w.sshKeys.find? (fun x => x.name == name) = some k →
      get_ssh_key_id w name = (Outcome.ok k.id, [Ev.apiGet "ssh_keys"])) ∧
    (w.sshKeys.find? (fun x => x.name == name) = none →
      (get_ssh_key_id w name).1 = Outcome.exit 1 ∧
      ∀ k ∈ w.sshKeys,
        Ev.printEv ("  - " ++ k.name ++ " (ID: " ++ toString k.id ++ ")")
          ∈ (get_ssh_key_id w name).2) ∧
    (∀ s, w.servers.find? (fun x => x.name == name) = some s →
      check_existing_server w name =
        (Outcome.ok (some s.id), [Ev.apiGet "servers"])) ∧
    (w.servers.find? (fun x => x.name == name) = none →
      check_existing_server w name = (Outcome.ok none, [Ev.apiGet "servers"])) := by
  refine ⟨?_, ?_, ?_, ?_⟩
  · intro k hk
    simp [get_ssh_key_id, hk]
  · intro hn
    have htr : get_ssh_key_id w name =
        (Outcome.exit 1,
         Ev.apiGet "ssh_keys" ::
           Ev.printEv ("ERROR: SSH key " ++ name ++ " not found!") ::
             Ev.printEv "Available SSH keys:" ::
               (w.sshKeys.map (fun k =>
                  Ev.printEv ("  - " ++ k.name ++ " (ID: " ++ toString k.id ++ ")")) ++
                [Ev.printEv "Please create an SSH key in Hetzner Console or update SSH_KEY_NAME in config"])) := by
      simp [get_ssh_key_id, hn]
    constructor
    · rw [htr]
    · intro k hk
      rw [htr]
      simp only [List.mem_cons]
      refine Or.inr (Or.inr (Or.inr ?_))
      exact List.mem_append_left _ (List.mem_map_of_mem _ hk)
  · intro s hs
    simp [check_existing_server, hs]
  · intro hn
    simp [check_existing_server, hn]

/-- Witness for C4 at a concrete listing. -/
theorem name_lookup_spec_witness :
    get_ssh_key_id wTest "admin" = (Outcome.ok 1, [Ev.apiGet "ssh_keys"]) ∧
    check_existing_server wTest "demo" =
      (Outcome.ok none, [Ev.apiGet "servers"]) :=
  ⟨(name_lookup_spec wTest "admin").1 { name := "admin", id := 1 } (by decide),
   (name_lookup_spec wTest "demo").2.2.2 (by decide)⟩

/-- Claim C5 (amended): `_request` performs exactly one HTTP attempt with
no retry; a transport error with no attached response prints the error and
exits 1; a 4xx/5xx response — the statuses `raise_for_status` raises on —
prints the error and the response body and exits 1; a surviving 204 is
normalized to the empty dict; any other surviving status (2xx, or an
unredirected 3xx) returns the parsed JSON body. -/
theorem request_error_handling (method endpoint : String) :
    (∀ t, (hetzner_request method endpoint t).2.countP isHttpEv = 1) ∧
    (hetzner_request method endpoint TransportOutcome.netError =
      (Outcome.exit 1,
       [Ev.httpEv method endpoint, Ev.printEv "API Error"])) ∧
    (∀ status text body, 400 ≤ status → status < 600 →
      hetzner_request method endpoint
          (TransportOutcome.httpResponse status text body) =
        (Outcome.exit 1,
         [Ev.httpEv method endpoint, Ev.printEv "API Error",
          Ev.printEv ("Response: " ++ text)])) ∧
    (∀ text body,
      hetzner_request method endpoint (TransportOutcome.httpResponse 204 text body) =
        (Outcome.ok ApiVal.emptyObj, [Ev.httpEv method endpoint])) ∧
    (∀ status text body, ¬ (400 ≤ status ∧ status < 600) → status ≠ 204 →
      hetzner_request method endpoint
          (TransportOutcome.httpResponse status text body) =
        (Outcome.ok body, [Ev.httpEv method endpoint])) := by
  refine ⟨?_, ?_, ?_, ?_, ?_⟩
  · intro t
    cases t with
    | netError => simp [hetzner_request, isHttpEv]
    | httpResponse status text body =>
      by_cases h : 400 ≤ status ∧ status < 600
      · simp [hetzner_request, h, isHttpEv]
      · by_cases h204 : status == 204
        · simp [hetzner_request, h, h204, isHttpEv]
        · simp [hetzner_request, h, h204, isHttpEv]
  · rfl
  · intro status text body h1 h2
    simp [hetzner_request, h1, h2]
  · intro text body
    simp [hetzner_request]
  · intro status text body h h204
    simp [hetzner_request, h, h204]

/-- Witness for C5 at concrete transport outcomes. -/
theorem request_error_handling_witness :
    hetzner_request "GET" "servers" (TransportOutcome.httpResponse 404 "nf" (ApiVal.val 3)) =
      (Outcome.exit 1,
       [Ev.httpEv "GET" "servers", Ev.printEv "API Error",
        Ev.printEv ("Response: " ++ "nf")]) :=
  (request_error_handling "GET" "servers").2.2.1 404 "nf" (ApiVal.val 3)
    (by decide) (by decide)

/-- Counterexample to claim C5 as stated: a 303 response (non-2xx, but
outside the 4xx/5xx range `raise_for_status` raises on, and reachable as a
final status since redirects without a Location header are not followed)
makes `_request` return the parsed body instead of terminating. -/
theorem request_non2xx_counterexample :
    hetzner_request "GET" "servers"
        (TransportOutcome.httpResponse 303 "see other" (ApiVal.val 7)) =
      (Outcome.ok (ApiVal.val 7), [Ev.httpEv "GET" "servers"]) ∧
    ¬ (200 ≤ 303 ∧ 303 < 300) := by
  constructor
  · rfl
  · decide

/-- Claim C10: a line of the settings file yields a binding iff the
stripped line is non-empty, does not start with a hash, and contains an
equals sign; the key is everything before the first equals sign (values
may themselves contain one); and the value is the remainder with
surrounding whitespace, then all leading and trailing double-quote
characters, then all leading and trailing single-quote characters removed
— mismatched or repeated surrounding quotes are all stripped. -/
theorem load_config_line_parsing :
    (∀ raw : String,
      (parseLine raw).isSome =
        (!(stripList pyIsSpace raw.data).isEmpty &&
         !((stripList pyIsSpace raw.data).head? == some '#') &&
         (stripList pyIsSpace raw.data).contains '=') ∧
      (∀ k v, parseLine raw = some (k, v) →
        k = String.mk
              ((stripList pyIsSpace raw.data).takeWhile (fun c => !(c == '='))) ∧
        v = pyStripChar '\''
              (pyStripChar '"'
                (String.mk (stripList pyIsSpace
                  (((stripList pyIsSpace raw.data).dropWhile
                      (fun c => !(c == '='))).drop 1)))))) ∧
    parseLine "KEY=\"\"v\"\"" = some ("KEY", "v") ∧
    parseLine "A=b=c" = some ("A", "b=c") ∧
    parseLine tickLine = some ("A", "3") ∧
    parseLine "# X=y" = none ∧
    parseLine "   " = none ∧
    parseLine "NOEQ" = none ∧
    load_config ["# comment", "A=1", "", "B = \"2\"", tickLine] =
      [("A", "3"), ("B ", "2")] := by
  refine ⟨?_, by decide, by decide, by decide, by decide, by decide, by decide,
    by decide⟩
  intro raw
  refine ⟨?_, ?_⟩
  · simp only [parseLine]
    split
    · next h =>
      simp at h ⊢
      tauto
    · next h =>
      simp at h ⊢
      tauto
  · intro k v hkv
    simp only [parseLine] at hkv
    split at hkv
    · next h =>
      simp only [Option.some.injEq, Prod.mk.injEq] at hkv
      exact ⟨hkv.1.symm, hkv.2.symm⟩
    · next h => simp at hkv

/-- Witness for C10: the general characterization applied to a concrete
quoted line. -/
theorem load_config_line_parsing_witness :
    parseLine "KEY=\"\"v\"\"" = some ("KEY", "v") :=
  load_config_line_parsing.2.1

/-- The polling loop issues at most `fuel` status fetches. -/
theorem waitFrom_get_le (w : World) (sid : Nat) :
    ∀ fuel i, (waitFrom w sid i fuel).2.countP isGetEv ≤ fuel := by
  intro fuel
  induction fuel with
  | zero =>
    intro i
    simp [waitFrom, isGetEv]
  | succ f ih =>
    intro i
    by_cases h : ((w.serverAt i).status == "running") = true
    · simp [waitFrom, h, isGetEv]
    · have hne : ((w.serverAt i).status == "running") = false := by
        simpa using h
      have := ih (i + 1)
      simp [waitFrom, hne, isGetEv, List.countP_cons, List.countP_append]
      omega

/-- If the first "running" tick is `d` steps ahead and within the budget,
the loop returns that tick's record after exactly `d + 1` fetches and `d`
two-second sleeps. -/
theorem waitFrom_success (w : World) (sid : Nat) :
    ∀ d i fuel, d < fuel →
      (∀ e, e < d → (w.serverAt (i + e)).status ≠ "running") →
      (w.serverAt (i + d)).status = "running" →
      (waitFrom w sid i fuel).1 = Outcome.ok (w.serverAt (i + d)) ∧
      (waitFrom w sid i fuel).2.countP isGetEv = d + 1 ∧
      (waitFrom w sid i fuel).2.countP isSleepEv = d := by
  intro d
  induction d with
  | zero =>
    intro i fuel hf hbefore hrun
    match fuel, hf with
    | f + 1, _ =>
      simp only [Nat.add_zero] at hrun
      simp [waitFrom, hrun, isGetEv, isSleepEv]
  | succ d ih =>
    intro i fuel hf hbefore hrun
    match fuel, hf with
    | f + 1, hf =>
      have h0 : (w.serverAt i).status ≠ "running" := by
        simpa using hbefore 0 (Nat.succ_pos d)
      have hne : ((w.serverAt i).status == "running") = false := by
        simp [h0]
      have hih := ih (i + 1) f (by omega)
        (fun e he => by
          have h1 := hbefore (e + 1) (by omega)
          have heq : i + (e + 1) = i + 1 + e := by omega
          rw [heq] at h1
          exact h1)
        (by
          have heq : i + (d + 1) = i + 1 + d := by omega
          rw [heq] at hrun
          exact hrun)
      have heq : i + (d + 1) = i + 1 + d := by omega
      rw [heq]
      simp [waitFrom, hne, isGetEv, isSleepEv, List.countP_cons,
        List.countP_append, hih.1, hih.2.1, hih.2.2]

/-- If "running" is never observed within the budget, the loop exits 1
after exactly `fuel` fetches and `fuel` sleeps. -/
theorem waitFrom_timeout (w : World) (sid : Nat) :
    ∀ fuel i, (∀ e, e < fuel → (w.serverAt (i + e)).status ≠ "running") →
      (waitFrom w sid i fuel).1 = Outcome.exit 1 ∧
      (waitFrom w sid i fuel).2.countP isGetEv = fuel ∧
      (waitFrom w sid i fuel).2.countP isSleepEv = fuel := by
  intro fuel
  induction fuel with
  | zero =>
    intro i h
    simp [waitFrom, isGetEv, isSleepEv]
  | succ f ih =>
    intro i h
    have h0 : (w.serverAt i).status ≠ "running" := by
      simpa using h 0 (by omega)
    have hne : ((w.serverAt i).status == "running") = false := by
      simp [h0]
    have hih := ih (i + 1) (fun e he => by
      have h1 := h (e + 1) (by omega)
      have heq : i + (e + 1) = i + 1 + e := by omega
      rw [heq] at h1
      exact h1)
    simp [waitFrom, hne, isGetEv, isSleepEv, List.countP_cons,
      List.countP_append, hih.1, hih.2.1, hih.2.2]

/-- Claim C2: the readiness poller performs at most 60 status fetches, with
a 2-second sleep after every unsuccessful fetch; if the first "running"
status occurs at tick `k < 60` it returns that tick's full server record
after exactly `k + 1` fetches (and `k` sleeps); if "running" is never
observed in the 60-tick budget it terminates with exit code 1 after
exactly 60 fetches. -/
theorem wait_for_server_spec (w : World) (sid : Nat) :
    ((wait_for_server w sid).2.countP isGetEv ≤ 60) ∧
    (∀ k, k < 60 → (∀ j, j < k → (w.serverAt j).status ≠ "running") →
      (w.serverAt k).status = "running" →
      (wait_for_server w sid).1 = Outcome.ok (w.serverAt k) ∧
      (wait_for_server w sid).2.countP isGetEv = k + 1 ∧
      (wait_for_server w sid).2.countP isSleepEv = k) ∧
    ((∀ j, j < 60 → (w.serverAt j).status ≠ "running") →
      (wait_for_server w sid).1 = Outcome.exit 1 ∧
      (wait_for_server w sid).2.countP isGetEv = 60 ∧
      (wait_for_server w sid).2.countP isSleepEv = 60) := by
  have hunf : wait_for_server w sid =
      ((waitFrom w sid 0 60).1,
       Ev.printEv "Waiting for server to be ready..." ::
         Ev.printEv "(This may take 1-2 minutes)" :: (waitFrom w sid 0 60).2) := by
    simp [wait_for_server]
  refine ⟨?_, ?_, ?_⟩
  · rw [hunf]
    simp only [List.countP_cons, isGetEv]
    simpa using waitFrom_get_le w sid 60 0
  · intro k hk hbefore hrun
    have h := waitFrom_success w sid k 0 60 hk
      (fun e he => by simpa using hbefore e he)
      (by simpa using hrun)
    rw [hunf]
    simp only [List.countP_cons, isGetEv, isSleepEv]
    simpa using h
  · intro hnever
    have h := waitFrom_timeout w sid 60 0
      (fun e he => by simpa using hnever e he)
    rw [hunf]
    simp only [List.countP_cons, isGetEv, isSleepEv]
    simpa using h

/-- Witness for C2: a status sequence whose first "running" is at tick 1
yields the tick-1 record after exactly 2 fetches and 1 sleep. -/
theorem wait_for_server_spec_witness :
    (wait_for_server wTest 42).1 = Outcome.ok (wTest.serverAt 1) ∧
    (wait_for_server wTest 42).2.countP isGetEv = 1 + 1 ∧
    (wait_for_server wTest 42).2.countP isSleepEv = 1 :=
  (wait_for_server_spec wTest 42).2.1 1 (by omega)
    (fun j hj => by
      have hj0 : j = 0 := by omega
      subst hj0
      decide)
    (by decide)

/-- A rejected validation produces exactly the two error prints and exit
code 1. -/
theorem validate_config_invalid (cfg : Config) (h : tokenInvalid cfg) :
    validate_config cfg =
      (Outcome.exit 1,
       [Ev.printEv "ERROR: HETZNER_API_TOKEN not set!",
        Ev.printEv "Please set it in hetzner-config.env"]) := by
  rcases h with h | h | h
  · simp [validate_config, h]
  · simp [validate_config, h]
  · simp [validate_config, h, placeholderToken]

/-- Claim C3: with the API token absent, empty, or the placeholder, both
the create flow (no argument) and the clean flow exit 1 having issued no
network request of any kind. -/
theorem invalid_token_no_network (cfg : Config) (w : World)
    (h : tokenInvalid cfg) :
    (pymain [] cfg w).1 = Outcome.exit 1 ∧
    (pymain [] cfg w).2.countP isNetworkEv = 0 ∧
    (pymain ["clean"] cfg w).1 = Outcome.exit 1 ∧
    (pymain ["clean"] cfg w).2.countP isNetworkEv = 0 := by
  have hval := validate_config_invalid cfg h
  have hclean : pyLower "clean" = "clean" := by decide
  refine ⟨?_, ?_, ?_, ?_⟩
  · simp [pymain, createFlow, banner, hval]
  · simp [pymain, createFlow, banner, hval, isNetworkEv]
  · simp [pymain, hclean, hval, banner]
  · simp [pymain, hclean, hval, banner, isNetworkEv]

/-- Witness for C3 at the placeholder configuration. -/
theorem invalid_token_no_network_witness :
    (pymain [] cfgBad wTest).1 = Outcome.exit 1 ∧
    (pymain [] cfgBad wTest).2.countP isNetworkEv = 0 ∧
    (pymain ["clean"] cfgBad wTest).1 = Outcome.exit 1 ∧
    (pymain ["clean"] cfgBad wTest).2.countP isNetworkEv = 0 :=
  invalid_token_no_network cfgBad wTest (Or.inr (Or.inr (by decide)))

/-- Claim C9 (amended): dispatch is on the LOWERCASED first argument.  No
argument runs the create flow; a first argument lowercasing to clean runs
validation plus the cleanup flow; one lowercasing to help, -h or --help
prints usage and returns (exit code 0) with no network traffic; any other
first argument prints an unknown-command error and exits 1 with no network
traffic. -/
theorem cli_dispatch (cfg : Config) (w : World) (a : String)
    (rest : List String) :
    (pymain [] cfg w =
      ((createFlow cfg w).1, banner ++ (createFlow cfg w).2)) ∧
    (pyLower a = "clean" →
      pymain (a :: rest) cfg w =
        ((M.bind (validate_config cfg) (fun cfg2 => clean_resources cfg2 w)).1,
         banner ++
           (M.bind (validate_config cfg) (fun cfg2 => clean_resources cfg2 w)).2)) ∧
    (pyLower a = "help" ∨ pyLower a = "-h" ∨ pyLower a = "--help" →
      (pymain (a :: rest) cfg w).1 = Outcome.ok () ∧
      (pymain (a :: rest) cfg w).2.countP isNetworkEv = 0) ∧
    (pyLower a ≠ "clean" → pyLower a ≠ "help" → pyLower a ≠ "-h" →
      pyLower a ≠ "--help" →
      (pymain (a :: rest) cfg w).1 = Outcome.exit 1 ∧
      (pymain (a :: rest) cfg w).2.countP isNetworkEv = 0 ∧
      Ev.printEv ("Unknown command: " ++ pyLower a) ∈ (pymain (a :: rest) cfg w).2) := by
  refine ⟨rfl, ?_, ?_, ?_⟩
  · intro h
    simp [pymain, h, banner]
  · intro h
    rcases h with h | h | h <;> simp [pymain, h, banner, isNetworkEv]
  · intro h1 h2 h3 h4
    simp [pymain, h1, h2, h3, h4, banner, isNetworkEv]

/-- Counterexample to claim C9 as stated: the argument CLEAN is none of
clean, help, -h, --help, yet the program neither prints an unknown-command
error nor exits nonzero — the dispatcher lowercases the argument and runs
the cleanup flow, which here completes with exit code 0. -/
theorem cli_dispatch_counterexample :
    ("CLEAN" ≠ "clean" ∧ "CLEAN" ≠ "help" ∧ "CLEAN" ≠ "-h" ∧
      "CLEAN" ≠ "--help") ∧
    (pymain ["CLEAN"] cfgDemo wTest).1 = Outcome.ok () := by
  exact ⟨⟨by decide, by decide, by decide, by decide⟩, by decide⟩

/-- Witness for C9: a HELP argument returns exit code 0 with no network
traffic. -/
theorem cli_dispatch_witness :
    (pymain ["HELP"] cfgDemo wTest).1 = Outcome.ok () ∧
    (pymain ["HELP"] cfgDemo wTest).2.countP isNetworkEv = 0 :=
  (cli_dispatch cfgDemo wTest "HELP" []).2.2.1 (Or.inl (by decide))

/-- Helper: binding after a computation known to succeed concatenates the
traces. -/
theorem M.bind_fst_ok {α β : Type} (x : M α) (a : α) (f : α → M β)
    (hx : x.1 = Outcome.ok a) :
    M.bind x f = ((f a).1, x.2 ++ (f a).2) := by
  obtain ⟨o, t⟩ := x
  simp only at hx
  subst hx
  rfl

/-- Full characterization of the firewall step of the cleanup flow. -/
theorem cleanFirewallStep_eq (w : World) (fname : String) (n : Nat) :
    cleanFirewallStep w fname n =
      (Outcome.ok (),
       Ev.printEv "Step 2: Finding and deleting firewall..." ::
         Ev.apiGet "firewalls" ::
           (match w.firewalls.find? (fun f => f.name == fname) with
            | some f =>
              Ev.printEv ("Found firewall (ID: " ++ toString f.id ++ ")") ::
                Ev.promptEv ::
                  (if isYes (w.answers n) then
                    [Ev.apiDelete ("firewalls/" ++ toString f.id),
                     Ev.printEv "Firewall deleted"]
                  else [Ev.printEv "Skipped firewall deletion"])
            | none => [Ev.printEv ("No firewall named " ++ fname ++ " found")])) := by
  cases hfw : w.firewalls.find? (fun f => f.name == fname) with
  | none => simp [cleanFirewallStep, hfw]
  | some f =>
    by_cases hy : isYes (w.answers n) = true
    · simp [cleanFirewallStep, hfw, hy]
    · simp only [Bool.not_eq_true] at hy
      simp [cleanFirewallStep, hfw, hy]

/-- Full characterization of the cleanup flow on a mapping whose
SERVER_NAME is known. -/
theorem clean_resources_eq (cfg : Config) (w : World) (sname : String)
    (hS : cfgFind cfg "SERVER_NAME" = some sname) :
    clean_resources cfg w =
      (Outcome.ok (),
       (Ev.printEv ("Cleaning up resources for " ++ sname ++ "...") ::
          Ev.printEv "Step 1: Finding and deleting server..." ::
            Ev.apiGet "servers" ::
              (match w.servers.find? (fun s => s.name == sname) with
               | some s =>
                 Ev.printEv ("Found server (ID: " ++ toString s.id ++ ")") ::
                   Ev.promptEv ::
                     (if isYes (w.answers 0) then
                       [Ev.apiDelete ("servers/" ++ toString s.id),
                        Ev.printEv "Server deleted", Ev.sleepEv 2]
                     else [Ev.printEv "Skipped server deletion"])
               | none => [Ev.printEv ("No server named " ++ sname ++ " found")])) ++
         (cleanFirewallStep w (sname ++ "-firewall")
             (if (w.servers.find? (fun s => s.name == sname)).isSome then 1
              else 0)).2 ++
         [Ev.printEv "Cleanup complete!"]) := by
  cases hsv : w.servers.find? (fun s => s.name == sname) with
  | none =>
    simp [clean_resources, cfgGetExn, hS, hsv, cleanFirewallStep_eq]
  | some s =>
    by_cases hy : isYes (w.answers 0) = true
    · simp [clean_resources, cfgGetExn, hS, hsv, hy, cleanFirewallStep_eq]
    · simp only [Bool.not_eq_true] at hy
      simp [clean_resources, cfgGetExn, hS, hsv, hy, cleanFirewallStep_eq]

/-- Claim C8: destructive deletes are gated on a yes/y confirmation.
Cleanup flow (on a validated mapping whose SERVER_NAME is `sname`): it
never exits (so `main` returns and the process exits 0); its delete
requests, in trace order, are exactly the server delete — present iff the
server was found AND answer 0 was yes — followed by the firewall delete —
present iff the firewall was found AND the next answer was yes; and it
prompts exactly once per found resource, hence no prompt and no delete
when neither exists.  Create flow on a name collision: answering no aborts
with exit code 0 and no delete request at all; answering yes issues the
delete of the existing server. -/
theorem confirm_before_delete (cfg : Config) (w : World) (sname : String)
    (hS : cfgFind cfg "SERVER_NAME" = some sname) :
    ((clean_resources cfg w).1 = Outcome.ok ()) ∧
    ((clean_resources cfg w).2.filter isDeleteEv =
      (match w.servers.find? (fun s => s.name == sname) with
       | some s =>
         if isYes (w.answers 0) then
           [Ev.apiDelete ("servers/" ++ toString s.id)]
         else []
       | none => []) ++
      (match w.firewalls.find? (fun f => f.name == (sname ++ "-firewall")) with
       | some f =>
         if isYes (w.answers
             (if (w.servers.find? (fun s => s.name == sname)).isSome then 1
              else 0)) then
           [Ev.apiDelete ("firewalls/" ++ toString f.id)]
         else []
       | none => [])) ∧
    ((clean_resources cfg w).2.countP isPromptEv =
      (if (w.servers.find? (fun s => s.name == sname)).isSome then 1 else 0) +
      (if (w.firewalls.find? (fun f =>
            f.name == (sname ++ "-firewall"))).isSome then 1 else 0)) ∧
    (∀ stype sloc simg sshname fwen bken key s,
      cfgFind cfg "SERVER_TYPE" = some stype →
      cfgFind cfg "SERVER_LOCATION" = some sloc →
      cfgFind cfg "SERVER_IMAGE" = some simg →
      cfgFind cfg "SSH_KEY_NAME" = some sshname →
      cfgFind cfg "ENABLE_FIREWALL" = some fwen →
      cfgFind cfg "ENABLE_BACKUPS" = some bken →
      w.sshKeys.find? (fun k => k.name == sshname) = some key →
      w.servers.find? (fun x => x.name == sname) = some s →
      ((isYes (w.answers 0) = false →
        (createMainBody cfg w).1 = Outcome.exit 0 ∧
        (createMainBody cfg w).2.filter isDeleteEv = []) ∧
       (isYes (w.answers 0) = true →
        Ev.apiDelete ("servers/" ++ toString s.id) ∈
          (createMainBody cfg w).2))) := by
  refine ⟨?_, ?_, ?_, ?_⟩
  · rw [clean_resources_eq cfg w sname hS]
  · rw [clean_resources_eq cfg w sname hS]
    cases hsv : w.servers.find? (fun s => s.name == sname) with
    | none =>
      rw [cleanFirewallStep_eq]
      cases hfw : w.firewalls.find? (fun f => f.name == (sname ++ "-firewall")) with
      | none => simp [hsv, hfw, isDeleteEv]
      | some f =>
        by_cases hy : isYes (w.answers 0) = true
        · simp [hsv, hfw, hy, isDeleteEv]
        · simp only [Bool.not_eq_true] at hy
          simp [hsv, hfw, hy, isDeleteEv]
    | some s =>
      rw [cleanFirewallStep_eq]
      cases hfw : w.firewalls.find? (fun f => f.name == (sname ++ "-firewall")) with
      | none =>
        by_cases hy : isYes (w.answers 0) = true
        · simp [hsv, hfw, hy, isDeleteEv]
        · simp only [Bool.not_eq_true] at hy
          simp [hsv, hfw, hy, isDeleteEv]
      | some f =>
        by_cases hy : isYes (w.answers 0) = true <;>
          by_cases hy1 : isYes (w.answers 1) = true
        · simp [hsv, hfw, hy, hy1, isDeleteEv]
        · simp only [Bool.not_eq_true] at hy1
          simp [hsv, hfw, hy, hy1, isDeleteEv]
        · simp only [Bool.not_eq_true] at hy
          simp [hsv, hfw, hy, hy1, isDeleteEv]
        · simp only [Bool.not_eq_true] at hy hy1
          simp [hsv, hfw, hy, hy1, isDeleteEv]
  · rw [clean_resources_eq cfg w sname hS]
    cases hsv : w.servers.find? (fun s => s.name == sname) with
    | none =>
      rw [cleanFirewallStep_eq]
      cases hfw : w.firewalls.find? (fun f => f.name == (sname ++ "-firewall")) with
      | none => simp [hsv, hfw, isPromptEv]
      | some f =>
        by_cases hy : isYes (w.answers 0) = true
        · simp [hsv, hfw, hy, isPromptEv]
        · simp only [Bool.not_eq_true] at hy
          simp [hsv, hfw, hy, isPromptEv]
    | some s =>
      rw [cleanFirewallStep_eq]
      cases hfw : w.firewalls.find? (fun f => f.name == (sname ++ "-firewall")) with
      | none =>
        by_cases hy : isYes (w.answers 0) = true
        · simp [hsv, hfw, hy, isPromptEv]
        · simp only [Bool.not_eq_true] at hy
          simp [hsv, hfw, hy, isPromptEv]
      | some f =>
        by_cases hy : isYes (w.answers 0) = true <;>
          by_cases hy1 : isYes (w.answers 1) = true
        · simp [hsv, hfw, hy, hy1, isPromptEv]
        · simp only [Bool.not_eq_true] at hy1
          simp [hsv, hfw, hy, hy1, isPromptEv]
        · simp only [Bool.not_eq_true] at hy
          simp [hsv, hfw, hy, hy1, isPromptEv]
        · simp only [Bool.not_eq_true] at hy hy1
          simp [hsv, hfw, hy, hy1, isPromptEv]
  · intro stype sloc simg sshname fwen bken key s hT hL hI hK hF hB hkey hs
    constructor
    · intro hy
      constructor
      · simp [createMainBody, hS, hT, hL, hI, hK, hF, hB, cfgGetExn,
          get_ssh_key_id, hkey, check_existing_server, hs, hy]
      · simp [createMainBody, hS, hT, hL, hI, hK, hF, hB, cfgGetExn,
          get_ssh_key_id, hkey, check_existing_server, hs, hy, isDeleteEv]
    · intro hy
      simp [createMainBody, hS, hT, hL, hI, hK, hF, hB, cfgGetExn,
        get_ssh_key_id, hkey, check_existing_server, hs, hy, isDeleteEv]

/-- Witness for C8: with both resources present and every answer YES, the
cleanup flow returns (exit 0) and issues the server delete followed by the
firewall delete; the create flow on the same collision issues the delete
of the existing server. -/
theorem confirm_before_delete_witness :
    (clean_resources (applyDefaults cfgDemo) wBoth).1 = Outcome.ok () ∧
    (clean_resources (applyDefaults cfgDemo) wBoth).2.filter isDeleteEv =
      [Ev.apiDelete ("servers/" ++ toString (42 : Nat)),
       Ev.apiDelete ("firewalls/" ++ toString (7 : Nat))] ∧
    Ev.apiDelete ("servers/" ++ toString (42 : Nat)) ∈
      (createMainBody (applyDefaults cfgDemo) wBoth).2 := by
  have h := confirm_before_delete (applyDefaults cfgDemo) wBoth "demo" (by decide)
  refine ⟨h.1, ?_, ?_⟩
  · rw [h.2.1]
    decide
  · exact (h.2.2.2 "cx21" "nbg1" "ubuntu-22.04" "admin" "true" "false"
      { name := "admin", id := 1 } { name := "demo", id := 42 }
      (by decide) (by decide) (by decide) (by decide) (by decide) (by decide)
      (by decide) (by decide)).2 (by decide)

/-- Claim C7 evidence: on a configuration lacking SSH_KEY_NAME the
validator succeeds without filling any SSH key default, and the create
flow then terminates with exit code 1 (an uncaught KeyError at the
configuration display) before any network request — it neither completes
the configuration display nor reaches the SSH key lookup.  The default
admin exists only inside `save_server_info`. -/
theorem missing_ssh_key_name_keyerror (w : World) :
    cfgFind (applyDefaults cfgTok) "SSH_KEY_NAME" = none ∧
    (createFlow cfgTok w).1 = Outcome.exit 1 ∧
    (createFlow cfgTok w).2.countP isNetworkEv = 0 ∧
    cfgGetD (applyDefaults cfgTok) "SSH_KEY_NAME" "admin" = "admin" := by
  refine ⟨by decide, ?_, ?_, by decide⟩
  · rfl
  · rfl

end Hetzner
